import Mathlib

/-!
Shallow embedding of `sheet.py` (class `Sheet`): an in-memory spreadsheet with
single-letter column addresses, a dynamically resized 2D list of cell contents,
and read-time recursive formula evaluation over Python `ast` trees.

Python values are modelled by `Value` (ints, floats as rationals, strings,
`None`); raised Python exceptions are modelled by `Except PyErr`; Python's
call-stack limit (`RecursionError`) is modelled by an explicit fuel argument
threaded through the recursive `get_value(raw=True)` path.
-/

namespace SheetPy

/-- Python runtime values that can live in a cell or arise during evaluation.
Floats are modelled as rationals (the claims under study only exercise exact
arithmetic). `none` models Python `None`, the demo default value. -/
inductive Value where
  | none : Value
  | int : Int → Value
  | float : Rat → Value
  | str : String → Value
deriving DecidableEq, Repr

/-- Python exceptions that the code in `sheet.py` can raise.
`sheetIndexErr` is `CustomSheetIndexError` (carries the upper-cased index),
`emptyCellErr` is `CustomEmptyCellError`, `alreadySetErr` is
`CustomValueAlreadySetError` (carries index and current value), `indexErr` is
the builtin `IndexError` from list indexing, `valueErr` is the builtin
`ValueError` from `int('')`, `synErr` is the builtin parse failure raised by
`ast.parse`, `typeErr` is `TypeError`, `recursionErr` is `RecursionError`,
and `zeroDivErr` is `ZeroDivisionError`. -/
inductive PyErr where
  | typeErr : PyErr
  | recursionErr : PyErr
  | synErr : PyErr
  | zeroDivErr : PyErr
  | indexErr : PyErr
  | valueErr : PyErr
  | sheetIndexErr : String → PyErr
  | emptyCellErr : String → PyErr
  | alreadySetErr : String → Value → PyErr
deriving DecidableEq, Repr

/-- The sheet state: the configurable default value (`default_value`,
`None` in the demo) and `_data_array`, the 2D list of cell contents.
A fresh `Sheet()` starts with the empty data array. -/
structure Sheet where
  default_value : Value
  data : List (List Value)
deriving DecidableEq, Repr

/-- `Sheet()` with the default `default_value=None`. -/
def emptySheet : Sheet := { default_value := Value.none, data := [] }

/-- Python list read `l[i]`: negative indices count from the end; an index
out of range raises `IndexError`. -/
def pyIdx {α : Type} (l : List α) (i : Int) : Except PyErr α :=
  let j : Int := if i < 0 then i + l.length else i
  if 0 ≤ j then
    match l.get? j.toNat with
    | some x => Except.ok x
    | Option.none => Except.error PyErr.indexErr
  else Except.error PyErr.indexErr

/-- Python list element assignment `l[i] = v`: same index rules as `pyIdx`;
out of range raises `IndexError`. Returns the updated list. -/
def pySet {α : Type} (l : List α) (i : Int) (v : α) : Except PyErr (List α) :=
  let j : Int := if i < 0 then i + l.length else i
  if 0 ≤ j ∧ j.toNat < l.length then Except.ok (l.set j.toNat v)
  else Except.error PyErr.indexErr

/-- `self._data_array[row][col]` (read). -/
def readCell (data : List (List Value)) (row col : Int) : Except PyErr Value := do
  let r ← pyIdx data row
  pyIdx r col

/-- `self._data_array[row][col] = v`: Python mutates the row object obtained by
`data[row]` in place; functionally, replace that row by its updated copy. -/
def writeCell (data : List (List Value)) (row col : Int) (v : Value) :
    Except PyErr (List (List Value)) := do
  let r ← pyIdx data row
  let r2 ← pySet r col v
  pySet data row r2

/-- Python `==` between cell values (`current_value != self.default_value`):
numbers compare across int/float, `None` only equals `None`, strings compare
as strings, everything else is unequal. -/
def pyEq : Value → Value → Bool
  | Value.none, Value.none => true
  | Value.int a, Value.int b => a = b
  | Value.int a, Value.float b => (a : Rat) = b
  | Value.float a, Value.int b => a = (b : Rat)
  | Value.float a, Value.float b => a = b
  | Value.str a, Value.str b => a = b
  | _, _ => false

/-- `str.upper()` on one character, for the ASCII range the address grammar
uses. -/
def pyUpperChar (c : Char) : Char :=
  if 'a' ≤ c ∧ c ≤ 'z' then Char.ofNat (c.toNat - 32) else c

/-- `str.upper()` (ASCII range). -/
def pyUpper (s : String) : String := String.mk (s.toList.map pyUpperChar)

/-- `_alphabet_mapping.get(head)`: `head` must be a single letter `A`..`Z`;
maps to its 0-based position in the alphabet. -/
def alphaIdx : List Char → Option Nat
  | [c] => if 'A' ≤ c ∧ c ≤ 'Z' then some (c.toNat - 'A'.toNat) else Option.none
  | _ => Option.none

/-- Value of a nonempty run of decimal digit characters (`int(tail)` on the
digit run produced by the rstrip split). -/
def digitsVal (ds : List Char) : Nat :=
  ds.foldl (fun acc c => acc * 10 + (c.toNat - '0'.toNat)) 0

/-- `Sheet.__resolve_index`: upper-case the index, split off the maximal
trailing digit run, look the remaining head up in the alphabet mapping
(raising `CustomSheetIndexError` on failure), and return
`(int(tail) - 1, column)`.  `int('')` (empty tail) raises `ValueError`. -/
def resolve_index (idx : String) : Except PyErr (Int × Int) :=
  let s := pyUpper idx
  let cs := s.toList
  let hd := (cs.reverse.dropWhile Char.isDigit).reverse
  let tl := cs.drop hd.length
  match alphaIdx hd with
  | Option.none => Except.error (PyErr.sheetIndexErr s)
  | some col =>
    match tl with
    | [] => Except.error PyErr.valueErr
    | _ => Except.ok ((digitsVal tl : Int) - 1, (col : Int))

/-- `Sheet.resize(rows, cols)`: truncate/keep the first `rows` rows, append
`rows - current_height` fresh rows of `cols` defaults, then extend **every**
row (including the fresh ones) by `cols - current_width` defaults whenever
`cols > current_width`.  All call sites pass `rows ≥ 0` and `cols ≥ 1`,
for which `Int.toNat` matches Python slicing and list repetition. -/
def resize (sh : Sheet) (rows cols : Int) : Sheet :=
  let h : Int := sh.data.length
  let cw : Int := (sh.data.head?.getD []).length
  let grown := sh.data.take rows.toNat ++
    List.replicate (rows - h).toNat (List.replicate cols.toNat sh.default_value)
  let ext : Nat := if cw < cols then (cols - cw).toNat else 0
  { sh with data := grown.map (fun r => r ++ List.replicate ext sh.default_value) }

/-- `Sheet.set_value`: resolve the index; try to read the current cell —
on `IndexError` resize to `(row+1, col+1)` and write (the write itself is
unprotected and may raise `IndexError`); otherwise raise
`CustomValueAlreadySetError` if the cell holds a non-default value, else
write in place. -/
def set_value (sh : Sheet) (idx : String) (v : Value) : Except PyErr Sheet := do
  let rc ← resolve_index idx
  match readCell sh.data rc.1 rc.2 with
  | Except.error _ =>
    let sh2 := resize sh (rc.1 + 1) (rc.2 + 1)
    let d ← writeCell sh2.data rc.1 rc.2 v
    pure { sh2 with data := d }
  | Except.ok current =>
    if pyEq current sh.default_value then do
      let d ← writeCell sh.data rc.1 rc.2 v
      pure { sh with data := d }
    else Except.error (PyErr.alreadySetErr idx current)

/-- `Sheet.edit_value`: resolve the index and assign the cell; an
`IndexError` from the assignment becomes `CustomEmptyCellError`. -/
def edit_value (sh : Sheet) (idx : String) (v : Value) : Except PyErr Sheet := do
  let rc ← resolve_index idx
  match writeCell sh.data rc.1 rc.2 v with
  | Except.ok d => pure { sh with data := d }
  | Except.error _ => Except.error (PyErr.emptyCellErr idx)

/-- `Sheet.delete_value`: like `edit_value` but writes the default value. -/
def delete_value (sh : Sheet) (idx : String) : Except PyErr Sheet := do
  let rc ← resolve_index idx
  match writeCell sh.data rc.1 rc.2 sh.default_value with
  | Except.ok d => pure { sh with data := d }
  | Except.error _ => Except.error (PyErr.emptyCellErr idx)

/-! ## The expression trees produced by `ast.parse(formula, mode='eval').body`
restricted to the arithmetic fragment `Sheet.__eval` understands: names
(cell references), non-negative integer literals, the binary operators
`+ - * / % **`, and unary negation.  Python inputs outside this fragment
(float literals, calls, comparisons, ...) are outside the model; no theorem
below depends on them. -/

/-- Binary operator kinds present in `Sheet._operators`. -/
inductive BOp where
  | add : BOp
  | sub : BOp
  | mul : BOp
  | div : BOp
  | mod : BOp
  | pow : BOp
deriving DecidableEq, Repr

/-- Unary operator kinds present in `Sheet._operators` (only `ast.USub`). -/
inductive UOp where
  | neg : UOp
deriving DecidableEq, Repr

/-- Parsed expression tree (the `ast` node kinds `Sheet.__eval` matches on). -/
inductive Ast where
  | name : String → Ast
  | num : Nat → Ast
  | binOp : BOp → Ast → Ast → Ast
  | unOp : UOp → Ast → Ast
deriving DecidableEq, Repr

/-- Lexer tokens for the arithmetic fragment. -/
inductive Tok where
  | num : Nat → Tok
  | ident : String → Tok
  | plus : Tok
  | minus : Tok
  | star : Tok
  | slash : Tok
  | percent : Tok
  | dstar : Tok
  | lparen : Tok
  | rparen : Tok
deriving DecidableEq, Repr

/-- Lexes identifier characters the way Python identifiers continue. -/
def isIdentChar (c : Char) : Bool := c.isAlpha || c.isDigit || c = '_'

/-- Tokenizer, fuelled for structural recursion (each step consumes at least
one character, so fuel `length + 1` always suffices).  Characters outside
the fragment raise the parse failure `synErr`, as `ast.parse` does. -/
def lexChars : Nat → List Char → Except PyErr (List Tok)
  | 0, _ => Except.error PyErr.synErr
  | _, [] => Except.ok []
  | f + 1, c :: cs =>
    if c = ' ' then lexChars f cs
    else if c.isDigit then
      (lexChars f (cs.dropWhile Char.isDigit)).map
        (fun ts => Tok.num (digitsVal (c :: cs.takeWhile Char.isDigit)) :: ts)
    else if c.isAlpha || c = '_' then
      (lexChars f (cs.dropWhile isIdentChar)).map
        (fun ts => Tok.ident (String.mk (c :: cs.takeWhile isIdentChar)) :: ts)
    else if c = '*' then
      match cs with
      | '*' :: cs2 => (lexChars f cs2).map (fun ts => Tok.dstar :: ts)
      | _ => (lexChars f cs).map (fun ts => Tok.star :: ts)
    else if c = '+' then (lexChars f cs).map (fun ts => Tok.plus :: ts)
    else if c = '-' then (lexChars f cs).map (fun ts => Tok.minus :: ts)
    else if c = '/' then (lexChars f cs).map (fun ts => Tok.slash :: ts)
    else if c = '%' then (lexChars f cs).map (fun ts => Tok.percent :: ts)
    else if c = '(' then (lexChars f cs).map (fun ts => Tok.lparen :: ts)
    else if c = ')' then (lexChars f cs).map (fun ts => Tok.rparen :: ts)
    else Except.error PyErr.synErr

/-- Left binding power of an infix token (Python precedence:
`+ -` < `* / %` < unary `-` < `**`). -/
def lbp : Tok → Nat
  | Tok.plus => 10
  | Tok.minus => 10
  | Tok.star => 20
  | Tok.slash => 20
  | Tok.percent => 20
  | Tok.dstar => 31
  | _ => 0

/-- Right binding power of an infix token (`**` is right-associative). -/
def rbp : Tok → Nat
  | Tok.plus => 11
  | Tok.minus => 11
  | Tok.star => 21
  | Tok.slash => 21
  | Tok.percent => 21
  | Tok.dstar => 30
  | _ => 0

/-- The binary operator denoted by an infix token. -/
def binOf : Tok → Option BOp
  | Tok.plus => some BOp.add
  | Tok.minus => some BOp.sub
  | Tok.star => some BOp.mul
  | Tok.slash => some BOp.div
  | Tok.percent => some BOp.mod
  | Tok.dstar => some BOp.pow
  | _ => Option.none

/-- Pratt parsing of the arithmetic fragment, reproducing Python expression
precedence and associativity.  With accumulator `none` it parses a prefix
(literal, name, parenthesized expression, or unary minus whose operand binds
at power 25); with `some lhs` it repeatedly consumes infix operators whose
left binding power is at least `minBP`.  Fuelled; every call decrements. -/
def parseP : Nat → Nat → Option Ast → List Tok → Except PyErr (Ast × List Tok)
  | 0, _, _, _ => Except.error PyErr.synErr
  | f + 1, minBP, Option.none, ts =>
    match ts with
    | Tok.num n :: rest => parseP f minBP (some (Ast.num n)) rest
    | Tok.ident s :: rest => parseP f minBP (some (Ast.name s)) rest
    | Tok.minus :: rest => do
      let er ← parseP f 25 Option.none rest
      parseP f minBP (some (Ast.unOp UOp.neg er.1)) er.2
    | Tok.lparen :: rest => do
      let er ← parseP f 0 Option.none rest
      match er.2 with
      | Tok.rparen :: rest3 => parseP f minBP (some er.1) rest3
      | _ => Except.error PyErr.synErr
    | _ => Except.error PyErr.synErr
  | f + 1, minBP, some lhs, ts =>
    match ts with
    | t :: rest =>
      match binOf t with
      | some o =>
        if minBP ≤ lbp t then do
          let rr ← parseP f (rbp t) Option.none rest
          parseP f minBP (some (Ast.binOp o lhs rr.1)) rr.2
        else Except.ok (lhs, ts)
      | Option.none => Except.ok (lhs, ts)
    | [] => Except.ok (lhs, ts)

/-- `ast.parse(body, mode='eval').body` on the arithmetic fragment: lex, parse
a full expression, and require all tokens consumed; failures model the raised
`SyntaxError`. -/
def parseFormula (body : String) : Except PyErr Ast := do
  let ts ← lexChars (body.length + 1) body.toList
  let er ← parseP (10 * ts.length + 10) 0 Option.none ts
  match er.2 with
  | [] => Except.ok er.1
  | _ => Except.error PyErr.synErr

/-- `value.startswith('=')` on the string content of a cell. -/
def isFormulaStr (s : String) : Bool :=
  match s.toList with
  | '=' :: _ => true
  | _ => false

/-- `formula[1:]`: strip the leading `=` before parsing. -/
def strTail (s : String) : String := String.mk (s.toList.drop 1)

/-- The source's formula test `isinstance(value, str) and value.startswith('=')`
as a predicate on cell contents. -/
def isFormulaVal : Value → Bool
  | Value.str s => isFormulaStr s
  | _ => false

/-- Numeric promotion for Python binary arithmetic: returns the two operands
as rationals together with a flag telling whether either side was a float. -/
def numPair : Value → Value → Option (Rat × Rat × Bool)
  | Value.int a, Value.int b => some ((a : Rat), (b : Rat), false)
  | Value.int a, Value.float b => some ((a : Rat), b, true)
  | Value.float a, Value.int b => some (a, (b : Rat), true)
  | Value.float a, Value.float b => some (a, b, true)
  | _, _ => Option.none

/-- Python string repetition `s * n` (empty for `n ≤ 0`). -/
def strRepeat (s : String) (n : Int) : String :=
  String.join (List.replicate n.toNat s)

/-- Application of the operators in `Sheet._operators` with Python semantics
on the value kinds that can occur in a cell: `int + int` stays `int`,
`str + str` concatenates, `str * int` repeats, true division always yields a
float and raises `ZeroDivisionError` on a zero divisor, `%` is floor-mod,
`**` of ints yields an int for non-negative exponents and a float otherwise
(`0 ** negative` raises `ZeroDivisionError`).  Mixed or unsupported operand
kinds raise `TypeError`.  Float `**` with a non-integer exponent has an
irrational result and is outside the rational model (no theorem uses it). -/
def applyBin : BOp → Value → Value → Except PyErr Value
  | BOp.add, Value.int a, Value.int b => Except.ok (Value.int (a + b))
  | BOp.add, Value.str a, Value.str b => Except.ok (Value.str (a ++ b))
  | BOp.add, a, b =>
    match numPair a b with
    | some p => Except.ok (Value.float (p.1 + p.2.1))
    | Option.none => Except.error PyErr.typeErr
  | BOp.sub, Value.int a, Value.int b => Except.ok (Value.int (a - b))
  | BOp.sub, a, b =>
    match numPair a b with
    | some p => Except.ok (Value.float (p.1 - p.2.1))
    | Option.none => Except.error PyErr.typeErr
  | BOp.mul, Value.int a, Value.int b => Except.ok (Value.int (a * b))
  | BOp.mul, Value.str a, Value.int b => Except.ok (Value.str (strRepeat a b))
  | BOp.mul, Value.int a, Value.str b => Except.ok (Value.str (strRepeat b a))
  | BOp.mul, a, b =>
    match numPair a b with
    | some p => Except.ok (Value.float (p.1 * p.2.1))
    | Option.none => Except.error PyErr.typeErr
  | BOp.div, a, b =>
    match numPair a b with
    | some p =>
      if p.2.1 = 0 then Except.error PyErr.zeroDivErr
      else Except.ok (Value.float (p.1 / p.2.1))
    | Option.none => Except.error PyErr.typeErr
  | BOp.mod, Value.int a, Value.int b =>
    if b = 0 then Except.error PyErr.zeroDivErr
    else Except.ok (Value.int (Int.fmod a b))
  | BOp.mod, a, b =>
    match numPair a b with
    | some p =>
      if p.2.1 = 0 then Except.error PyErr.zeroDivErr
      else Except.ok (Value.float (p.1 - p.2.1 * (Rat.floor (p.1 / p.2.1) : Rat)))
    | Option.none => Except.error PyErr.typeErr
  | BOp.pow, Value.int a, Value.int b =>
    if 0 ≤ b then Except.ok (Value.int (a ^ b.toNat))
    else if a = 0 then Except.error PyErr.zeroDivErr
    else Except.ok (Value.float ((a : Rat) ^ b))
  | BOp.pow, a, b =>
    match numPair a b with
    | some p =>
      if p.2.1.den = 1 then
        if p.1 = 0 ∧ p.2.1.num < 0 then Except.error PyErr.zeroDivErr
        else Except.ok (Value.float (p.1 ^ p.2.1.num))
      else Except.error PyErr.typeErr
    | Option.none => Except.error PyErr.typeErr

/-- `op.neg` with Python semantics: negates numbers, raises `TypeError`
otherwise. -/
def applyNeg : Value → Except PyErr Value
  | Value.int a => Except.ok (Value.int (-a))
  | Value.float a => Except.ok (Value.float (-a))
  | _ => Except.error PyErr.typeErr

/-- `Sheet.__eval`: bottom-up evaluation of the tree.  Cell references
(`ast.Name`) are resolved through the `get_value(..., raw=True)` oracle
`getv`; the fuel plumbing that models the call-stack limit is tied in
`get_value_raw` below. -/
def evalAst (getv : String → Except PyErr Value) : Ast → Except PyErr Value
  | Ast.name a => getv a
  | Ast.num n => Except.ok (Value.int n)
  | Ast.binOp o l r => do
    let lv ← evalAst getv l
    let rv ← evalAst getv r
    applyBin o lv rv
  | Ast.unOp UOp.neg e => do
    let v ← evalAst getv e
    applyNeg v

/-- The body of the `try` block of `Sheet.__evaluate_formula`: strip the
leading `=`, parse, and evaluate. -/
def evaluate_formula_inner (getv : String → Except PyErr Value)
    (formula : String) : Except PyErr Value := do
  let t ← parseFormula (strTail formula)
  evalAst getv t

/-- `Sheet.__evaluate_formula`: run the parse/eval pipeline and convert a
raised `RecursionError` or `TypeError` — and only those — into the string
result `"ERROR"`; every other exception propagates to the caller. -/
def evaluate_formula (getv : String → Except PyErr Value)
    (formula : String) : Except PyErr Value :=
  match evaluate_formula_inner getv formula with
  | Except.ok v => Except.ok v
  | Except.error e =>
    if e = PyErr.recursionErr ∨ e = PyErr.typeErr then Except.ok (Value.str "ERROR")
    else Except.error e

/-- One level of `Sheet.get_value(idx, raw=True)`: resolve the index, read
the raw cell content, and if it is a string starting with `=` evaluate it as
a formula (with `getv` answering the nested reference reads). -/
def getRawStep (sh : Sheet) (getv : String → Except PyErr Value)
    (idx : String) : Except PyErr Value := do
  let rc ← resolve_index idx
  let value ← readCell sh.data rc.1 rc.2
  match value with
  | Value.str s =>
    if isFormulaStr s then evaluate_formula getv s else pure (Value.str s)
  | v => pure v

/-- `Sheet.get_value(idx, raw=True)` at a given stack budget: each recursive
reference dereference descends with one unit of fuel less, and exhausted
fuel models the interpreter raising `RecursionError`. -/
def get_value_raw (sh : Sheet) : Nat → String → Except PyErr Value
  | 0, _ => Except.error PyErr.recursionErr
  | n + 1, idx => getRawStep sh (get_value_raw sh n) idx

/-- The dict `{"value": ..., "result": ...}` returned by `get_value`. -/
structure CellView where
  value : Value
  result : Value
deriving DecidableEq, Repr

/-- `Sheet.get_value(idx)` (with `raw=False`): resolve, read the raw content,
evaluate it if it is formula text, and return both raw content and result.
Nested reference reads run at stack budget `fuel`. -/
def get_value (sh : Sheet) (fuel : Nat) (idx : String) : Except PyErr CellView := do
  let rc ← resolve_index idx
  let value ← readCell sh.data rc.1 rc.2
  let result ←
    match value with
    | Value.str s =>
      if isFormulaStr s then evaluate_formula (get_value_raw sh fuel) s
      else pure (Value.str s)
    | v => pure v
  pure { value := value, result := result }

/-! ## Helper instances and lemmas -/

instance {ε α : Type _} [DecidableEq ε] [DecidableEq α] : DecidableEq (Except ε α) :=
  fun x y =>
  match x, y with
  | Except.ok a, Except.ok b =>
    if h : a = b then Decidable.isTrue (congrArg Except.ok h)
    else Decidable.isFalse (fun hh => h (by injection hh))
  | Except.error a, Except.error b =>
    if h : a = b then Decidable.isTrue (congrArg Except.error h)
    else Decidable.isFalse (fun hh => h (by injection hh))
  | Except.ok _, Except.error _ => Decidable.isFalse (fun hh => Except.noConfusion hh)
  | Except.error _, Except.ok _ => Decidable.isFalse (fun hh => Except.noConfusion hh)

theorem ok_bind {ε α β : Type _} (a : α) (f : α → Except ε β) :
    (Except.ok a : Except ε α) >>= f = f a := rfl

theorem error_bind {ε α β : Type _} (e : ε) (f : α → Except ε β) :
    (Except.error e : Except ε α) >>= f = Except.error e := rfl

/-- `Sheet.__resolve_index` can only raise `CustomSheetIndexError` (on the
upper-cased index) or `ValueError`; in particular never `TypeError` or
`RecursionError`, so resolution failures pass the formula-evaluation
exception filter untouched. -/
theorem resolve_index_error_classify (s : String) (e : PyErr)
    (h : resolve_index s = Except.error e) :
    e = PyErr.sheetIndexErr (pyUpper s) ∨ e = PyErr.valueErr := by
  unfold resolve_index at h
  dsimp only at h
  rcases halpha : alphaIdx (((pyUpper s).toList.reverse.dropWhile Char.isDigit).reverse)
    with _ | col
  · rw [halpha] at h
    exact Or.inl (by injection h with h2; exact h2.symm)
  · rw [halpha] at h
    rcases htl : (pyUpper s).toList.drop
        ((((pyUpper s).toList.reverse.dropWhile Char.isDigit).reverse).length) with _ | ⟨c, cs⟩
    · rw [htl] at h
      exact Or.inr (by injection h with h2; exact h2.symm)
    · rw [htl] at h
      exact absurd h (by simp)

/-- Python `l[-1]` reads the last element. -/
theorem pyIdx_getLast {α : Type} (l : List α) (x : α) (h : l.getLast? = some x) :
    pyIdx l (-1) = Except.ok x := by
  have hne : l ≠ [] := by
    intro he
    rw [he] at h
    simp at h
  have hlen : 1 ≤ l.length := List.length_pos.mpr hne
  unfold pyIdx
  have hj : (if (-1 : Int) < 0 then -1 + (l.length : Int) else -1) = (l.length : Int) - 1 := by
    rw [if_pos (show (-1 : Int) < 0 by norm_num)]
    omega
  rw [hj]
  have h0 : (0 : Int) ≤ (l.length : Int) - 1 := by omega
  rw [if_pos h0]
  have htn : ((l.length : Int) - 1).toNat = l.length - 1 := by omega
  rw [htn]
  rw [List.get?_eq_getElem?, ← List.getLast?_eq_getElem?, h]

/-- Python `l[0]` reads the head. -/
theorem pyIdx_head {α : Type} (l : List α) (x : α) (h : l.head? = some x) :
    pyIdx l 0 = Except.ok x := by
  unfold pyIdx
  simp only [if_neg (by omega : ¬ (0 : Int) < 0), if_pos (le_refl (0 : Int)), Int.toNat_zero]
  rw [List.get?_eq_getElem?, ← List.head?_eq_getElem?, h]

/-! ## Concrete sheet states used by individual claims.
Each is the exact `_data_array` produced by the stated `set_value` calls on a
fresh sheet (the building equation is part of the claim's theorem). -/

/-- State after `set_value("A1", "=A1")` on a fresh sheet. -/
def selfRefSheet : Sheet :=
  { default_value := Value.none, data := [[Value.str "=A1", Value.none]] }

/-- State after `set_value("A1", "=B1")` then `set_value("B1", "=A1")`. -/
def cycleSheet : Sheet :=
  { default_value := Value.none, data := [[Value.str "=B1", Value.str "=A1"]] }

/-- State after `set_value("A1", "=A1+1/0")` on a fresh sheet. -/
def selfDivSheet : Sheet :=
  { default_value := Value.none, data := [[Value.str "=A1+1/0", Value.none]] }

/-- State after `set_value("A1", "=1+")` on a fresh sheet. -/
def badSynSheet : Sheet :=
  { default_value := Value.none, data := [[Value.str "=1+", Value.none]] }

/-- State after `set_value("A1", "=AA1")` on a fresh sheet. -/
def badRefSheet : Sheet :=
  { default_value := Value.none, data := [[Value.str "=AA1", Value.none]] }

/-! ## Claims -/

/-- Claim C8 (confirmed): chained formulas compose and results are recomputed
from current contents on every read.  From a fresh sheet, after
`set B1=1, B2=2, B3="=B1+B2", B4="=B3-10"`, reading `B4` yields result `-7`;
and after `edit B2 = 20`, reading `B3` yields result `21` without re-setting
`B3`.  (Fuel 10 far exceeds the reference depth of these formulas, so it
models an undisturbed host call stack.) -/
theorem c8_chained_formulas_recompute :
    (((set_value emptySheet "B1" (Value.int 1)).bind fun s =>
      (set_value s "B2" (Value.int 2)).bind fun s =>
      (set_value s "B3" (Value.str "=B1+B2")).bind fun s =>
      (set_value s "B4" (Value.str "=B3-10")).bind fun s =>
      get_value s 10 "B4") =
      Except.ok { value := Value.str "=B3-10", result := Value.int (-7) }) ∧
    (((set_value emptySheet "B1" (Value.int 1)).bind fun s =>
      (set_value s "B2" (Value.int 2)).bind fun s =>
      (set_value s "B3" (Value.str "=B1+B2")).bind fun s =>
      (set_value s "B4" (Value.str "=B3-10")).bind fun s =>
      (edit_value s "B2" (Value.int 20)).bind fun s =>
      get_value s 10 "B3") =
      Except.ok { value := Value.str "=B1+B2", result := Value.int 21 }) := by
  constructor <;> decide

/-- Claim C3 (code bug): the grid is *not* rectangular after every operation
sequence.  Already the demo script's own first two operations break it: from a
fresh sheet, `set_value("B1", 1)` then `set_value("B2", 2)` leaves rows of
lengths 4 and 2 — `resize`'s width-extension loop also extends the freshly
created rows (so the first `set` builds a 1×4 row), and a later growth whose
requested width is below the current first-row width leaves the new row
shorter. -/
theorem c3_grid_ragged_after_two_sets :
    ((set_value emptySheet "B1" (Value.int 1)).bind fun s =>
      set_value s "B2" (Value.int 2)).map (fun s => s.data.map List.length) =
      Except.ok [4, 2] := by
  decide

/-- Claim C4 (code bug): the row count is *not* monotonically non-decreasing.
From a fresh sheet, `set B1=1; set B2=2` yields 2 rows, but the next
`set E1=3` triggers `resize(1, 5)`, whose `data[:rows]` slice truncates the
grid back to 1 row: the previously set `B2` cell is destroyed and reading
`"B2"` afterwards raises `IndexError`. -/
theorem c4_row_count_shrinks :
    (((set_value emptySheet "B1" (Value.int 1)).bind fun s =>
      set_value s "B2" (Value.int 2)).map (fun s => s.data.length) =
      Except.ok 2) ∧
    (((set_value emptySheet "B1" (Value.int 1)).bind fun s =>
      (set_value s "B2" (Value.int 2)).bind fun s =>
      set_value s "E1" (Value.int 3)).map (fun s => s.data.length) =
      Except.ok 1) ∧
    (((set_value emptySheet "B1" (Value.int 1)).bind fun s =>
      (set_value s "B2" (Value.int 2)).bind fun s =>
      (set_value s "E1" (Value.int 3)).bind fun s =>
      get_value s 5 "B2") = Except.error PyErr.indexErr) := by
  refine ⟨by decide, by decide, by decide⟩

/-- Claim C7 (code bug): `set` on an empty/out-of-bounds cell does not always
write the value.  From a fresh sheet, `set B1=1; set B2=2` leaves the ragged
grid `[[None,1,None,None],[None,2]]`; cell `"C2"` is then out of bounds
(reading it raises `IndexError`, so it is not an `AlreadySet` situation), yet
`set_value("C2", 9)` raises the builtin `IndexError`: the `resize(2, 3)` it
performs does not extend row 1 (3 is below the current first-row width 4),
and the subsequent unprotected write `data[1][2] = 9` fails. -/
theorem c7_set_on_empty_cell_raises :
    (((set_value emptySheet "B1" (Value.int 1)).bind fun s =>
      (set_value s "B2" (Value.int 2)).bind fun s =>
      get_value s 5 "C2") = Except.error PyErr.indexErr) ∧
    (((set_value emptySheet "B1" (Value.int 1)).bind fun s =>
      (set_value s "B2" (Value.int 2)).bind fun s =>
      set_value s "C2" (Value.int 9)) = Except.error PyErr.indexErr) := by
  constructor <;> decide

/-- Claim C1 counterexample: a parse failure is *not* converted to the ERROR
sentinel.  With cell `A1` holding the malformed formula `"=1+"` (set
successfully from a fresh sheet), `get_value("A1")` raises the parse failure
(`SyntaxError` from `ast.parse`) past the evaluation boundary instead of
returning a number or `"ERROR"`. -/
theorem c1_parse_failure_escapes :
    set_value emptySheet "A1" (Value.str "=1+") = Except.ok badSynSheet ∧
    get_value badSynSheet 5 "A1" = Except.error PyErr.synErr := by
  constructor <;> decide

/-- Claim C2 counterexample: a formula referencing an address whose resolution
fails does *not* evaluate to ERROR.  With cell `A1` holding `"=AA1"` (set
successfully from a fresh sheet), `get_value("A1")` raises
`CustomSheetIndexError("AA1")` — the exception filter only catches
`RecursionError` and `TypeError`, so the resolution fault crashes the
caller. -/
theorem c2_bad_reference_escapes :
    set_value emptySheet "A1" (Value.str "=AA1") = Except.ok badRefSheet ∧
    get_value badRefSheet 5 "A1" = Except.error (PyErr.sheetIndexErr "AA1") := by
  constructor <;> decide

/-- Claim C5 counterexample: an out-of-bounds read does *not* return the
default value.  `"A1"` is a syntactically valid address resolving to (0, 0),
but on a fresh (empty) sheet `get_value("A1")` raises the builtin
`IndexError` — a fault other than `InvalidAddress` — instead of returning
the default. -/
theorem c5_oob_get_raises_index_error :
    resolve_index "A1" = Except.ok (0, 0) ∧
    get_value emptySheet 5 "A1" = Except.error PyErr.indexErr := by
  constructor <;> decide

/-- Claim C6 counterexample: an address with a missing row part does *not*
fault with the `InvalidAddress` condition.  `"B"` resolves its head to column
1, then `int('')` raises the builtin `ValueError`, which propagates through
`get_value` — a different exception from `CustomSheetIndexError`. -/
theorem c6_missing_row_part_is_value_error :
    resolve_index "B" = Except.error PyErr.valueErr ∧
    get_value emptySheet 5 "B" = Except.error PyErr.valueErr := by
  constructor <;> decide

/-- Claim C9 counterexample: not every reference cycle yields the ERROR
sentinel.  Cell `A1` holds the self-referencing formula `"=A1+1/0"` (set
successfully from a fresh sheet).  The innermost recursive dereference turns
into `"ERROR"`, but one level up the right operand `1/0` raises
`ZeroDivisionError`, which the evaluation boundary does not catch:
`get_value("A1")` crashes instead of returning `"ERROR"`. -/
theorem c9_cycle_with_zero_division_crashes :
    set_value emptySheet "A1" (Value.str "=A1+1/0") = Except.ok selfDivSheet ∧
    get_value selfDivSheet 5 "A1" = Except.error PyErr.zeroDivErr := by
  constructor <;> decide

/-- Claim C1 (amended): the evaluation boundary converts exactly `TypeError`
and `RecursionError` into the `"ERROR"` sentinel; on every other outcome of
the parse/eval pipeline — including parse failures — `evaluate_formula`
behaves exactly like the unguarded pipeline, so other exceptions are raised
past the boundary. -/
theorem c1_amended_exception_filter (getv : String → Except PyErr Value) (f : String) :
    (evaluate_formula getv f = Except.ok (Value.str "ERROR") ∧
      (evaluate_formula_inner getv f = Except.error PyErr.typeErr ∨
       evaluate_formula_inner getv f = Except.error PyErr.recursionErr)) ∨
    evaluate_formula getv f = evaluate_formula_inner getv f := by
  rcases h : evaluate_formula_inner getv f with e | v
  · by_cases he : e = PyErr.recursionErr ∨ e = PyErr.typeErr
    · left
      refine ⟨by simp [evaluate_formula, h, he], ?_⟩
      rcases he with rfl | rfl
      · exact Or.inr rfl
      · exact Or.inl rfl
    · right
      simp [evaluate_formula, h, he]
  · right
    simp [evaluate_formula, h]

/-- Claim C2 (amended): when a formula consists of a reference to an address
whose resolution fails, the resolution exception (`CustomSheetIndexError` or
`ValueError`, never `TypeError`/`RecursionError`) propagates out of
`get_value` unchanged — the caller crashes with that fault rather than
receiving the ERROR sentinel. -/
theorem c2_amended_nested_resolution_fault_propagates
    (sh : Sheet) (n : Nat) (idx : String) (rc : Int × Int) (s a : String) (e : PyErr)
    (h1 : resolve_index idx = Except.ok rc)
    (h2 : readCell sh.data rc.1 rc.2 = Except.ok (Value.str s))
    (h3 : isFormulaStr s = true)
    (h4 : parseFormula (strTail s) = Except.ok (Ast.name a))
    (h5 : resolve_index a = Except.error e) :
    get_value sh (n + 1) idx = Except.error e := by
  have hcls := resolve_index_error_classify a e h5
  have hraw : get_value_raw sh (n + 1) a = Except.error e := by
    simp only [get_value_raw, getRawStep, h5, error_bind]
  have hinner : evaluate_formula_inner (get_value_raw sh (n + 1)) s = Except.error e := by
    unfold evaluate_formula_inner
    rw [h4, ok_bind]
    simpa [evalAst] using hraw
  have hef : evaluate_formula (get_value_raw sh (n + 1)) s = Except.error e := by
    unfold evaluate_formula
    rw [hinner]
    rcases hcls with rfl | rfl <;> simp
  simp only [get_value, h1, ok_bind, h2, h3, hef, error_bind]
  simp [h3, hef]

/-- Witness for the amended claim C2 at a concrete input: cell `A1` holds
`"=AA1"` and reading it propagates `CustomSheetIndexError("AA1")`. -/
theorem c2_amended_witness :
    get_value badRefSheet 1 "A1" = Except.error (PyErr.sheetIndexErr "AA1") :=
  c2_amended_nested_resolution_fault_propagates badRefSheet 0 "A1" (0, 0) "=AA1" "AA1"
    (PyErr.sheetIndexErr "AA1") (by decide) (by decide) (by decide) (by decide) (by decide)

/-- Claim C5 (amended): a `get` on a syntactically valid address whose
coordinates lie outside the grid raises the builtin `IndexError` (it does not
return the default value; `InvalidAddress` is not the only fault `get` can
raise). -/
theorem c5_amended_oob_get_raises (sh : Sheet) (n : Nat) (idx : String) (rc : Int × Int)
    (h1 : resolve_index idx = Except.ok rc)
    (h2 : readCell sh.data rc.1 rc.2 = Except.error PyErr.indexErr) :
    get_value sh n idx = Except.error PyErr.indexErr := by
  simp only [get_value, h1, ok_bind, h2, error_bind]

/-- Witness for the amended claim C5 at a concrete input: reading `"A5"` on a
fresh empty sheet raises `IndexError`. -/
theorem c5_amended_witness :
    get_value emptySheet 3 "A5" = Except.error PyErr.indexErr :=
  c5_amended_oob_get_raises emptySheet 3 "A5" (4, 0) (by decide) (by decide)

/-- Claim C6 (amended): any address-resolution failure propagates unchanged
through each of set/get/edit/delete.  Resolution fails with
`CustomSheetIndexError` (`InvalidAddress`) when the column part is not a
single letter A–Z — e.g. `"AA1"`, and `"1A"` whose whole text becomes the
column part — but an address that is a bare letter (row part missing, e.g.
`"B"`) fails with the builtin `ValueError` from `int('')` instead. -/
theorem c6_amended_resolution_faults :
    (∀ (sh : Sheet) (n : Nat) (idx : String) (v : Value) (e : PyErr),
      resolve_index idx = Except.error e →
      set_value sh idx v = Except.error e ∧
      get_value sh n idx = Except.error e ∧
      edit_value sh idx v = Except.error e ∧
      delete_value sh idx = Except.error e) ∧
    resolve_index "AA1" = Except.error (PyErr.sheetIndexErr "AA1") ∧
    resolve_index "1A" = Except.error (PyErr.sheetIndexErr "1A") ∧
    resolve_index "B" = Except.error PyErr.valueErr := by
  refine ⟨?_, by decide, by decide, by decide⟩
  intro sh n idx v e h
  exact ⟨by simp only [set_value, h, error_bind],
         by simp only [get_value, h, error_bind],
         by simp only [edit_value, h, error_bind],
         by simp only [delete_value, h, error_bind]⟩

/-- Witness for the amended claim C6 at concrete inputs: `set_value("AA1", 1)`
faults with `CustomSheetIndexError("AA1")` and `get_value("B")` faults with
`ValueError`. -/
theorem c6_amended_witness :
    set_value emptySheet "AA1" (Value.int 1) = Except.error (PyErr.sheetIndexErr "AA1") ∧
    get_value emptySheet 3 "B" = Except.error PyErr.valueErr :=
  ⟨(c6_amended_resolution_faults.1 emptySheet 3 "AA1" (Value.int 1)
      (PyErr.sheetIndexErr "AA1") (by decide)).1,
   (c6_amended_resolution_faults.1 emptySheet 3 "B" (Value.int 1)
      PyErr.valueErr (by decide)).2.1⟩

/-- On `selfRefSheet` (cell `A1` holds `"=A1"`), evaluating the formula
`"=A1"` yields the `"ERROR"` sentinel at every stack budget: with no budget
left the reference raises `RecursionError`, which the boundary catches; with
budget left the nested dereference returns `"ERROR"` by induction and passes
through unchanged. -/
theorem selfRef_formula_error (n : Nat) :
    evaluate_formula (get_value_raw selfRefSheet n) "=A1" = Except.ok (Value.str "ERROR") := by
  induction n with
  | zero => decide
  | succ m ih =>
    have hraw : get_value_raw selfRefSheet (m + 1) "A1" = Except.ok (Value.str "ERROR") := by
      simp only [get_value_raw, getRawStep]
      rw [show resolve_index "A1" = Except.ok ((0 : Int), (0 : Int)) from by decide, ok_bind]
      rw [show readCell selfRefSheet.data 0 0 = Except.ok (Value.str "=A1") from by decide,
        ok_bind]
      simpa [show isFormulaStr "=A1" = true from by decide] using ih
    unfold evaluate_formula evaluate_formula_inner
    rw [show parseFormula (strTail "=A1") = Except.ok (Ast.name "A1") from by decide, ok_bind]
    simp [evalAst, hraw]

/-- On `cycleSheet` (`A1` holds `"=B1"`, `B1` holds `"=A1"`), evaluating
either formula yields the `"ERROR"` sentinel at every stack budget. -/
theorem cycle_formula_error (n : Nat) :
    evaluate_formula (get_value_raw cycleSheet n) "=A1" = Except.ok (Value.str "ERROR") ∧
    evaluate_formula (get_value_raw cycleSheet n) "=B1" = Except.ok (Value.str "ERROR") := by
  induction n with
  | zero => exact ⟨by decide, by decide⟩
  | succ m ih =>
    constructor
    · have hraw : get_value_raw cycleSheet (m + 1) "A1" = Except.ok (Value.str "ERROR") := by
        simp only [get_value_raw, getRawStep]
        rw [show resolve_index "A1" = Except.ok ((0 : Int), (0 : Int)) from by decide, ok_bind]
        rw [show readCell cycleSheet.data 0 0 = Except.ok (Value.str "=B1") from by decide,
          ok_bind]
        simpa [show isFormulaStr "=B1" = true from by decide] using ih.2
      unfold evaluate_formula evaluate_formula_inner
      rw [show parseFormula (strTail "=A1") = Except.ok (Ast.name "A1") from by decide, ok_bind]
      simp [evalAst, hraw]
    · have hraw : get_value_raw cycleSheet (m + 1) "B1" = Except.ok (Value.str "ERROR") := by
        simp only [get_value_raw, getRawStep]
        rw [show resolve_index "B1" = Except.ok ((0 : Int), (1 : Int)) from by decide, ok_bind]
        rw [show readCell cycleSheet.data 0 1 = Except.ok (Value.str "=A1") from by decide,
          ok_bind]
        simpa [show isFormulaStr "=A1" = true from by decide] using ih.1
      unfold evaluate_formula evaluate_formula_inner
      rw [show parseFormula (strTail "=B1") = Except.ok (Ast.name "B1") from by decide, ok_bind]
      simp [evalAst, hraw]

/-- Claim C9 (amended): reference cycles whose evaluation faults only through
recursion exhaustion do terminate with the recoverable `"ERROR"` sentinel, at
every stack budget — shown for a direct self-reference (`A1 = "=A1"`) and a
two-cell mutual cycle (`A1 = "=B1"`, `B1 = "=A1"`), both built by `set_value`
from a fresh sheet.  (This conversion is not guaranteed for every cycle: a
cyclic formula that performs an additional faulting operation can raise past
`get`, see the counterexample.) -/
theorem c9_amended_pure_cycles_error :
    (set_value emptySheet "A1" (Value.str "=A1") = Except.ok selfRefSheet) ∧
    (∀ n : Nat, get_value selfRefSheet n "A1" =
      Except.ok { value := Value.str "=A1", result := Value.str "ERROR" }) ∧
    ((set_value emptySheet "A1" (Value.str "=B1")).bind
      (fun s => set_value s "B1" (Value.str "=A1")) = Except.ok cycleSheet) ∧
    (∀ n : Nat, get_value cycleSheet n "A1" =
      Except.ok { value := Value.str "=B1", result := Value.str "ERROR" }) := by
  refine ⟨by decide, ?_, by decide, ?_⟩
  · intro n
    simp only [get_value]
    rw [show resolve_index "A1" = Except.ok ((0 : Int), (0 : Int)) from by decide, ok_bind]
    rw [show readCell selfRefSheet.data 0 0 = Except.ok (Value.str "=A1") from by decide,
      ok_bind]
    simp [show isFormulaStr "=A1" = true from by decide, selfRef_formula_error n]
  · intro n
    simp only [get_value]
    rw [show resolve_index "A1" = Except.ok ((0 : Int), (0 : Int)) from by decide, ok_bind]
    rw [show readCell cycleSheet.data 0 0 = Except.ok (Value.str "=B1") from by decide,
      ok_bind]
    simp [show isFormulaStr "=B1" = true from by decide, (cycle_formula_error n).2]

/-- Claim C10 (confirmed): an address with digit part `"0"` resolves without
fault to row index `-1`, and — via Python's negative indexing — `get` on such
an address reads the cell in the *last* row of the named column: for `"A0"`,
whenever the grid has a last row whose column 0 holds a non-formula value
`v`, `get_value` returns `v` as both raw value and result. -/
theorem c10_row_zero_reads_last_row :
    resolve_index "A0" = Except.ok (-1, 0) ∧
    ∀ (sh : Sheet) (n : Nat) (lastRow : List Value) (v : Value),
      sh.data.getLast? = some lastRow → lastRow.head? = some v →
      isFormulaVal v = false →
      get_value sh n "A0" = Except.ok { value := v, result := v } := by
  refine ⟨by decide, ?_⟩
  intro sh n lastRow v h1 h2 h3
  simp only [get_value]
  rw [show resolve_index "A0" = Except.ok ((-1 : Int), (0 : Int)) from by decide, ok_bind]
  have hread : readCell sh.data (-1) 0 = Except.ok v := by
    unfold readCell
    rw [pyIdx_getLast sh.data lastRow h1, ok_bind, pyIdx_head lastRow v h2]
  rw [hread, ok_bind]
  rcases v with _ | i | q | s
  · rfl
  · rfl
  · rfl
  · have hs : isFormulaStr s = false := by simpa [isFormulaVal] using h3
    simp only [hs, Bool.false_eq_true, if_false, ok_bind]
    rfl

/-- Witness for claim C10 at a concrete input: on the one-cell grid `[[7]]`,
`get_value("A0")` returns value 7 and result 7. -/
theorem c10_witness :
    get_value { default_value := Value.none, data := [[Value.int 7]] } 0 "A0" =
      Except.ok { value := Value.int 7, result := Value.int 7 } :=
  c10_row_zero_reads_last_row.2 _ 0 [Value.int 7] (Value.int 7)
    (by decide) (by decide) (by decide)

end SheetPy
